import Mathlib

/-!
Verification of the document-lifecycle and analysis-orchestration core of the
Legal-AI-Simplifier frontend: the zustand store in src/frontend/src/store/index.ts,
the ApiService adapter in src/frontend/src/services/api.ts, and the UploadPage
drop filter.  Each definition is a shallow embedding of the corresponding
TypeScript function; network outcomes are passed in explicitly as values of an
Except type, and the ambient clock (Date.now, toISOString) is passed as a
parameter, so that every action becomes a pure state transformer.
-/

/-- JavaScript truthiness-based disjunction on an optional string, as in
the expression a or-else b: an absent value and the empty string both fall
through to the right operand. -/
def jsOr (a : Option String) (b : String) : String :=
  match a with
  | some s => if s = "" then b else s
  | none => b

/-- JavaScript nullish coalescing on an optional value, as in the
expression a double-question-mark b: only an absent value falls through;
the empty string does not. -/
def nco {α : Type} : Option α → α → α
  | some a, _ => a
  | none, b => b

/-- A caught error in a store action catch block: the optional
server-supplied field at error.response.data.message, and the error object's
own optional message string. -/
structure CaughtError where
  responseMessage : Option String
  message : Option String
  deriving Repr, DecidableEq

/-- Document record as committed to the store (src/frontend/src/types/index.ts).
The TypeScript source casts document_type and processing_status through an any
cast, so their runtime type is an arbitrary string, which is how they are
modelled here. -/
structure Document where
  document_id : String
  filename : String
  document_type : String
  file_size : Nat
  upload_timestamp : String
  processing_status : String
  deriving Repr, DecidableEq

/-- One extracted contractual clause (src/frontend/src/types/index.ts). -/
structure Clause where
  clause_id : String
  title : String
  content : String
  category : String
  risk_level : String
  explanation : Option String
  page_number : Option Nat
  deriving Repr, DecidableEq

/-- One risk alert (src/frontend/src/types/index.ts). -/
structure Alert where
  alert_id : String
  title : String
  description : String
  risk_level : String
  clause_reference : String
  recommendation : String
  page_number : Option Nat
  deriving Repr, DecidableEq

/-- One question-and-answer history entry held by the store. -/
structure QASession where
  id : String
  question : String
  answer : String
  timestamp : String
  deriving Repr, DecidableEq

/-- The normalized upload response produced by the adapter
(ApiService.uploadDocument in src/frontend/src/services/api.ts). -/
structure DocumentUploadResponse where
  document_id : String
  filename : String
  document_type : String
  file_size : Nat
  upload_timestamp : String
  processing_status : String
  message : String
  deriving Repr, DecidableEq

/-- The normalized summary response produced by the adapter
(ApiService.summarizeDocument).  The floating-point confidence_score of the
source is not modelled; no claim concerns it. -/
structure SummaryResponse where
  document_id : String
  summary : String
  language : String
  word_count : Nat
  disclaimer : String
  deriving Repr, DecidableEq

/-- Clause-extraction response as returned by the backend and passed through
unmapped by ApiService.extractClauses. -/
structure ClausesResponse where
  document_id : String
  clauses : List Clause
  total_clauses : Nat
  disclaimer : String
  deriving Repr, DecidableEq

/-- Alerts response as returned by the backend and passed through unmapped by
ApiService.getAlerts.  The risk_summary record of counts is not modelled; no
claim concerns it. -/
structure AlertsResponse where
  document_id : String
  alerts : List Alert
  total_alerts : Nat
  disclaimer : String
  deriving Repr, DecidableEq

/-- Question-answering response as returned by the backend and passed through
unmapped by ApiService.askQuestion.  The floating-point confidence_score of
the source is not modelled; no claim concerns it. -/
structure AskResponse where
  document_id : String
  question : String
  answer : String
  relevant_sections : List String
  disclaimer : String
  deriving Repr, DecidableEq

/-- The zustand store state (interface AppState in
src/frontend/src/store/index.ts), restricted to its data fields; the action
closures are modelled as the standalone functions below. -/
structure AppState where
  documents : List Document
  currentDocument : Option Document
  summary : Option String
  clauses : List Clause
  alerts : List Alert
  qaSessions : List QASession
  isLoading : Bool
  uploadProgress : Nat
  error : Option String
  successMessage : Option String
  deriving Repr, DecidableEq

/-- The store's initial state. -/
def initialState : AppState :=
  { documents := []
    currentDocument := none
    summary := none
    clauses := []
    alerts := []
    qaSessions := []
    isLoading := false
    uploadProgress := 0
    error := none
    successMessage := none }

/-- Sync action addDocument: append the new document to the list. -/
def addDocument (s : AppState) (d : Document) : AppState :=
  { s with documents := s.documents ++ [d] }

/-- Sync action removeDocument: drop every document with the given id and
clear currentDocument when it referenced that id. -/
def removeDocument (s : AppState) (documentId : String) : AppState :=
  { s with
    documents := s.documents.filter (fun d => d.document_id != documentId)
    currentDocument :=
      match s.currentDocument with
      | some c => if c.document_id = documentId then none else some c
      | none => none }

/-- Sync action addQASession: append an entry stamped with a local
timestamp-based id. -/
def addQASession (s : AppState) (question answer : String)
    (nowMs : Nat) (nowIso : String) : AppState :=
  { s with
    qaSessions := s.qaSessions ++
      [{ id := "qa_" ++ toString nowMs
         question := question
         answer := answer
         timestamp := nowIso }] }

/-- The shared begin phase of every async store action: set isLoading and
clear any previous error. -/
def beginLoad (s : AppState) : AppState :=
  { s with isLoading := true, error := none }

/-- Async action uploadDocument of the store, as a pure function of the
adapter call's outcome.  Returns the new state together with the value the
action returns to its caller. -/
def uploadDocumentAction (s : AppState)
    (outcome : Except CaughtError DocumentUploadResponse) :
    AppState × Option Document :=
  let s1 := { beginLoad s with uploadProgress := 0 }
  match outcome with
  | .ok result =>
    let newDocument : Document :=
      { document_id := result.document_id
        filename := result.filename
        document_type := result.document_type
        file_size := result.file_size
        upload_timestamp := result.upload_timestamp
        processing_status := result.processing_status }
    let s2 := addDocument s1 newDocument
    let s3 := { s2 with
      successMessage := some "Document uploaded successfully!"
      uploadProgress := 100 }
    ({ s3 with isLoading := false }, some newDocument)
  | .error e =>
    let errorMessage := jsOr e.responseMessage (jsOr e.message "Upload failed")
    ({ s1 with error := some errorMessage, isLoading := false }, none)

/-- Async action fetchDocuments of the store. -/
def fetchDocumentsAction (s : AppState)
    (outcome : Except CaughtError (List Document)) : AppState :=
  let s1 := beginLoad s
  match outcome with
  | .ok docs => { s1 with documents := docs, isLoading := false }
  | .error e =>
    { s1 with
      error := some (jsOr e.responseMessage "Failed to fetch documents")
      isLoading := false }

/-- Async action generateSummary of the store. -/
def generateSummaryAction (s : AppState)
    (outcome : Except CaughtError SummaryResponse) : AppState :=
  let s1 := beginLoad s
  match outcome with
  | .ok result =>
    { s1 with
      summary := some result.summary
      successMessage := some "Summary generated successfully!"
      isLoading := false }
  | .error e =>
    { s1 with
      error := some (jsOr e.responseMessage "Failed to generate summary")
      isLoading := false }

/-- Async action extractClauses of the store: on success the clause list is
replaced wholesale by the clauses of the response. -/
def extractClausesAction (s : AppState)
    (outcome : Except CaughtError ClausesResponse) : AppState :=
  let s1 := beginLoad s
  match outcome with
  | .ok result =>
    { s1 with
      clauses := result.clauses
      successMessage := some "Clauses extracted successfully!"
      isLoading := false }
  | .error e =>
    { s1 with
      error := some (jsOr e.responseMessage "Failed to extract clauses")
      isLoading := false }

/-- Async action askQuestion of the store.  Returns the new state together
with the answer the action returns to its caller. -/
def askQuestionAction (s : AppState) (question : String)
    (nowMs : Nat) (nowIso : String)
    (outcome : Except CaughtError AskResponse) : AppState × Option String :=
  let s1 := beginLoad s
  match outcome with
  | .ok result =>
    let s2 := addQASession s1 question result.answer nowMs nowIso
    ({ s2 with isLoading := false }, some result.answer)
  | .error e =>
    ({ s1 with
       error := some (jsOr e.responseMessage "Failed to get answer")
       isLoading := false }, none)

/-- Async action fetchAlerts of the store. -/
def fetchAlertsAction (s : AppState)
    (outcome : Except CaughtError AlertsResponse) : AppState :=
  let s1 := beginLoad s
  match outcome with
  | .ok result => { s1 with alerts := result.alerts, isLoading := false }
  | .error e =>
    { s1 with
      error := some (jsOr e.responseMessage "Failed to fetch alerts")
      isLoading := false }

/-- Async action deleteDocument of the store.  A successful outcome carries
the acknowledgment message of the DELETE endpoint. -/
def deleteDocumentAction (s : AppState) (documentId : String)
    (outcome : Except CaughtError String) : AppState :=
  let s1 := beginLoad s
  match outcome with
  | .ok _ =>
    let s2 := removeDocument s1 documentId
    { s2 with
      successMessage := some "Document deleted successfully!"
      isLoading := false }
  | .error e =>
    { s1 with
      error := some (jsOr e.responseMessage "Failed to delete document")
      isLoading := false }

/-- File metadata as seen by the frontend: name, MIME type, size in bytes. -/
structure JsFile where
  name : String
  type : String
  size : Nat
  deriving Repr, DecidableEq

/-- Character-wise lowercasing, the effect of the JavaScript toLowerCase
call on the filenames the upload path handles. -/
def jsToLower (s : String) : String :=
  String.mk (s.data.map Char.toLower)

/-- Suffix test on strings, the JavaScript endsWith call, computed on the
underlying character lists. -/
def strEndsWith (s suffix : String) : Bool :=
  suffix.data.isSuffixOf s.data

/-- The inferType helper inside ApiService.uploadDocument: infer a document
type from the lowercased filename extension. -/
def inferType (fileName : String) : String :=
  let n := jsToLower fileName
  if strEndsWith n ".pdf" then "pdf"
  else if strEndsWith n ".docx" || strEndsWith n ".doc" then "docx"
  else "txt"

/-- The raw backend payload of the upload endpoint, with every historical
field name optional. -/
structure UploadRaw where
  document_id : Option String
  id : Option String
  filename : Option String
  document_type : Option String
  file_size : Option Nat
  size : Option Nat
  upload_timestamp : Option String
  timestamp : Option String
  processing_status : Option String
  status : Option String
  message : Option String
  deriving Repr, DecidableEq

/-- The normalization performed by ApiService.uploadDocument on the raw
backend payload: nullish-coalescing chains over alternate field names with
documented defaults.  nowMs stands for Date.now() and nowIso for
new Date().toISOString(). -/
def mapUploadResponse (file : JsFile) (nowMs : Nat) (nowIso : String)
    (raw : UploadRaw) : DocumentUploadResponse :=
  { document_id := nco raw.document_id (nco raw.id (toString nowMs))
    filename := nco raw.filename file.name
    document_type := nco raw.document_type (inferType file.name)
    file_size := nco raw.file_size (nco raw.size file.size)
    upload_timestamp := nco raw.upload_timestamp (nco raw.timestamp nowIso)
    processing_status := nco raw.processing_status (nco raw.status "processed")
    message := nco raw.message "Document uploaded successfully" }

/-- The raw backend payload of the analysis endpoint as read by
ApiService.summarizeDocument: the optional summary nested under analysis,
and the optional top-level simplified_version. -/
structure AnalysisRaw where
  analysis_summary : Option String
  simplified_version : Option String
  deriving Repr, DecidableEq

/-- The normalization performed by ApiService.summarizeDocument: a JavaScript
truthiness chain over the two summary locations with a literal placeholder
default, plus a whitespace word count of the chosen summary. -/
def mapSummaryResponse (documentId : String) (language : Option String)
    (raw : AnalysisRaw) : SummaryResponse :=
  let summary := jsOr raw.analysis_summary
    (jsOr raw.simplified_version "Summary not available.")
  { document_id := documentId
    summary := summary
    language := jsOr language "en"
    word_count :=
      ((summary.split (fun c => c.isWhitespace)).filter (fun w => w ≠ "")).length
    disclaimer := "This is an automated summary. Please verify important details." }

/-- Status payload of the document status endpoint. -/
structure DocumentStatus where
  document_id : String
  status : String
  error_message : Option String
  deriving Repr, DecidableEq

/-- Outcome of ApiService.pollDocumentStatus: the promise either resolves
with the final status or rejects with an error message. -/
inductive PollResult where
  | resolved (status : DocumentStatus)
  | rejected (message : String)
  deriving Repr, DecidableEq

/-- One self-rescheduling tick of ApiService.pollDocumentStatus.  The k-th
status fetch (k counted from 1) is assumed to succeed and return statuses k;
a throwing fetch rejects the promise immediately and is outside the claims
modelled here.  The result pairs the promise outcome with the list of
statuses passed to the per-update callback, in order; its length is the
number of fetches performed.  The structural fuel argument is maxAttempts + 1
minus the ticks already taken, which the attempts bound of the source keeps
strictly positive throughout the run. -/
def pollTick (statuses : Nat → DocumentStatus) (maxAttempts : Nat) :
    Nat → Nat → PollResult × List DocumentStatus
  | _, 0 => (.rejected "Timeout waiting for document processing", [])
  | attempts, fuel + 1 =>
    let a := attempts + 1
    let st := statuses a
    if st.status = "completed" then (.resolved st, [st])
    else if st.status = "failed" then
      (.rejected (jsOr st.error_message "Document processing failed"), [st])
    else if maxAttempts ≤ a then
      (.rejected "Timeout waiting for document processing", [st])
    else
      let rest := pollTick statuses maxAttempts a fuel
      (rest.1, st :: rest.2)

/-- ApiService.pollDocumentStatus: run the tick loop from zero attempts.
The fuel maxAttempts + 1 covers the longest possible run. -/
def pollDocumentStatus (statuses : Nat → DocumentStatus) (maxAttempts : Nat) :
    PollResult × List DocumentStatus :=
  pollTick statuses maxAttempts 0 (maxAttempts + 1)

/-- The four MIME types accepted by the upload page. -/
def acceptedMimeTypes : List String :=
  ["application/pdf", "application/msword",
   "application/vnd.openxmlformats-officedocument.wordprocessingml.document",
   "text/plain"]

/-- The validity check of UploadPage.onDrop: accepted MIME type and size at
most 10 MiB. -/
def isValidFile (f : JsFile) : Bool :=
  acceptedMimeTypes.contains f.type && f.size ≤ 10 * 1024 * 1024

/-- The local filter UploadPage.onDrop applies to dropped files before
anything touches the network. -/
def onDropFilter (files : List JsFile) : List JsFile :=
  files.filter isValidFile

/-- UploadPage.onDrop: append the valid dropped files to the already selected
batch and clear both messages; no adapter call is made. -/
def onDrop (s : AppState) (selected files : List JsFile) :
    AppState × List JsFile :=
  ({ s with error := none, successMessage := none },
   selected ++ onDropFilter files)

/-- The Document record the store constructs from a normalized upload
response inside its uploadDocument action. -/
def uploadedDocument (r : DocumentUploadResponse) : Document :=
  { document_id := r.document_id
    filename := r.filename
    document_type := r.document_type
    file_size := r.file_size
    upload_timestamp := r.upload_timestamp
    processing_status := r.processing_status }

/-- Claim C4: after two consecutive successful extractClauses calls, first
for document A and then for document B, the store's clause list equals
exactly the clause list returned for B; each commit replaces the clause list
wholesale rather than merging. -/
theorem extractClauses_wholesale_replace (s : AppState)
    (rA rB : ClausesResponse) :
    (extractClausesAction (extractClausesAction s (.ok rA)) (.ok rB)).clauses
      = rB.clauses := rfl

/-- Claim C5: a fetchAlerts call failing with any caught error leaves the
store's summary and clauses exactly as they were and sets the error field to
the message derived from the caught error, which is non-null. -/
theorem fetchAlerts_error_isolation (s : AppState) (e : CaughtError) :
    (fetchAlertsAction s (.error e)).summary = s.summary ∧
    (fetchAlertsAction s (.error e)).clauses = s.clauses ∧
    (fetchAlertsAction s (.error e)).error =
      some (jsOr e.responseMessage "Failed to fetch alerts") :=
  ⟨rfl, rfl, rfl⟩

/-- Claim C1, counterexample: the claimed error-message chain consults the
caught error's own message before the per-action default, but the
fetchDocuments action goes straight from the server-supplied field to its
default, so a network error with no server message and its own message text
produces the default rather than that text. -/
theorem fetchDocuments_error_ignores_own_message :
    (fetchDocumentsAction initialState
        (.error { responseMessage := none, message := some "socket hang up" })).error
      ≠ some (jsOr none (jsOr (some "socket hang up") "Failed to fetch documents")) := by
  decide

/-- Claim C1 as amended: every async orchestration action begins by setting
isLoading and clearing the previous error (so a stale error or loading flag
in the pre-state is irrelevant), finishes with isLoading false in both
outcomes, leaves error null on success, and on failure sets error to a
non-null message: the server-supplied message field if present and non-empty,
else, for uploadDocument only, the caught error's own message, else the
per-action default literal. -/
theorem async_actions_loading_error_contract (s : AppState) (e : CaughtError)
    (m : String) (b : Bool) (ru : DocumentUploadResponse)
    (docs : List Document) (rs : SummaryResponse) (rc : ClausesResponse)
    (ra : AlertsResponse) (rq : AskResponse) (q did ack : String)
    (nowMs : Nat) (nowIso : String) :
    ((beginLoad s).isLoading = true ∧ (beginLoad s).error = none) ∧
    ((uploadDocumentAction s (.ok ru)).1.isLoading = false ∧
     (uploadDocumentAction s (.ok ru)).1.error = none ∧
     (uploadDocumentAction s (.error e)).1.isLoading = false ∧
     (uploadDocumentAction s (.error e)).1.error =
       some (jsOr e.responseMessage (jsOr e.message "Upload failed")) ∧
     uploadDocumentAction { s with isLoading := b, error := some m } (.ok ru)
       = uploadDocumentAction s (.ok ru) ∧
     uploadDocumentAction { s with isLoading := b, error := some m } (.error e)
       = uploadDocumentAction s (.error e)) ∧
    ((fetchDocumentsAction s (.ok docs)).isLoading = false ∧
     (fetchDocumentsAction s (.ok docs)).error = none ∧
     (fetchDocumentsAction s (.error e)).isLoading = false ∧
     (fetchDocumentsAction s (.error e)).error =
       some (jsOr e.responseMessage "Failed to fetch documents") ∧
     fetchDocumentsAction { s with isLoading := b, error := some m } (.ok docs)
       = fetchDocumentsAction s (.ok docs) ∧
     fetchDocumentsAction { s with isLoading := b, error := some m } (.error e)
       = fetchDocumentsAction s (.error e)) ∧
    ((generateSummaryAction s (.ok rs)).isLoading = false ∧
     (generateSummaryAction s (.ok rs)).error = none ∧
     (generateSummaryAction s (.error e)).isLoading = false ∧
     (generateSummaryAction s (.error e)).error =
       some (jsOr e.responseMessage "Failed to generate summary") ∧
     generateSummaryAction { s with isLoading := b, error := some m } (.ok rs)
       = generateSummaryAction s (.ok rs) ∧
     generateSummaryAction { s with isLoading := b, error := some m } (.error e)
       = generateSummaryAction s (.error e)) ∧
    ((extractClausesAction s (.ok rc)).isLoading = false ∧
     (extractClausesAction s (.ok rc)).error = none ∧
     (extractClausesAction s (.error e)).isLoading = false ∧
     (extractClausesAction s (.error e)).error =
       some (jsOr e.responseMessage "Failed to extract clauses") ∧
     extractClausesAction { s with isLoading := b, error := some m } (.ok rc)
       = extractClausesAction s (.ok rc) ∧
     extractClausesAction { s with isLoading := b, error := some m } (.error e)
       = extractClausesAction s (.error e)) ∧
    ((askQuestionAction s q nowMs nowIso (.ok rq)).1.isLoading = false ∧
     (askQuestionAction s q nowMs nowIso (.ok rq)).1.error = none ∧
     (askQuestionAction s q nowMs nowIso (.error e)).1.isLoading = false ∧
     (askQuestionAction s q nowMs nowIso (.error e)).1.error =
       some (jsOr e.responseMessage "Failed to get answer") ∧
     askQuestionAction { s with isLoading := b, error := some m } q nowMs nowIso (.ok rq)
       = askQuestionAction s q nowMs nowIso (.ok rq) ∧
     askQuestionAction { s with isLoading := b, error := some m } q nowMs nowIso (.error e)
       = askQuestionAction s q nowMs nowIso (.error e)) ∧
    ((fetchAlertsAction s (.ok ra)).isLoading = false ∧
     (fetchAlertsAction s (.ok ra)).error = none ∧
     (fetchAlertsAction s (.error e)).isLoading = false ∧
     (fetchAlertsAction s (.error e)).error =
       some (jsOr e.responseMessage "Failed to fetch alerts") ∧
     fetchAlertsAction { s with isLoading := b, error := some m } (.ok ra)
       = fetchAlertsAction s (.ok ra) ∧
     fetchAlertsAction { s with isLoading := b, error := some m } (.error e)
       = fetchAlertsAction s (.error e)) ∧
    ((deleteDocumentAction s did (.ok ack)).isLoading = false ∧
     (deleteDocumentAction s did (.ok ack)).error = none ∧
     (deleteDocumentAction s did (.error e)).isLoading = false ∧
     (deleteDocumentAction s did (.error e)).error =
       some (jsOr e.responseMessage "Failed to delete document") ∧
     deleteDocumentAction { s with isLoading := b, error := some m } did (.ok ack)
       = deleteDocumentAction s did (.ok ack) ∧
     deleteDocumentAction { s with isLoading := b, error := some m } did (.error e)
       = deleteDocumentAction s did (.error e)) :=
  ⟨⟨rfl, rfl⟩,
   ⟨rfl, rfl, rfl, rfl, rfl, rfl⟩,
   ⟨rfl, rfl, rfl, rfl, rfl, rfl⟩,
   ⟨rfl, rfl, rfl, rfl, rfl, rfl⟩,
   ⟨rfl, rfl, rfl, rfl, rfl, rfl⟩,
   ⟨rfl, rfl, rfl, rfl, rfl, rfl⟩,
   ⟨rfl, rfl, rfl, rfl, rfl, rfl⟩,
   ⟨rfl, rfl, rfl, rfl, rfl, rfl⟩⟩

/-- Claim C6: a dropped file whose MIME type is not among the four accepted
types, or whose size exceeds 10 MiB, never survives the local onDrop filter:
it is absent from the filtered batch appended to the selection, the batch
built is exactly the previous selection plus the filtered files, and the
handler clears rather than sets the store error; no adapter call occurs in
onDrop at all. -/
theorem onDrop_excludes_invalid_files (s : AppState)
    (selected files : List JsFile) (f : JsFile) (hf : f ∈ files)
    (hbad : f.type ∉ acceptedMimeTypes ∨ 10 * 1024 * 1024 < f.size) :
    f ∉ onDropFilter files ∧
    (onDrop s selected files).2 = selected ++ onDropFilter files ∧
    (onDrop s selected files).1.error = none := by
  refine ⟨?_, rfl, rfl⟩
  intro hmem
  rw [onDropFilter, List.mem_filter] at hmem
  have hv := hmem.2
  simp only [isValidFile, Bool.and_eq_true, decide_eq_true_eq] at hv
  have hvmem : f.type ∈ acceptedMimeTypes := by simpa using hv.1
  rcases hbad with hb | hb
  · exact hb hvmem
  · omega

/-- Concrete oversized text file used in witnesses. -/
def bigTxtFile : JsFile :=
  { name := "big.txt", type := "text/plain", size := 10 * 1024 * 1024 + 1 }

/-- Witness for claim C6 at a concrete input: an oversized text file dropped
alone is excluded and the handler leaves no error. -/
theorem onDrop_excludes_invalid_files_witness :
    bigTxtFile ∉ onDropFilter [bigTxtFile] ∧
    (onDrop initialState [] [bigTxtFile]).2 = [] ++ onDropFilter [bigTxtFile] ∧
    (onDrop initialState [] [bigTxtFile]).1.error = none :=
  onDrop_excludes_invalid_files initialState [] [bigTxtFile] bigTxtFile
    (by decide) (Or.inr (by decide))

/-- Documents after a successful upload commit: the prior list with the
constructed document appended. -/
theorem uploadDocumentAction_ok_documents (s : AppState)
    (r : DocumentUploadResponse) :
    (uploadDocumentAction s (.ok r)).1.documents
      = s.documents ++ [uploadedDocument r] := rfl

/-- Folding a list of successful upload outcomes over the store appends the
corresponding documents in order. -/
theorem foldl_upload_documents (results : List DocumentUploadResponse) :
    ∀ s : AppState,
    (results.foldl (fun st r => (uploadDocumentAction st (.ok r)).1) s).documents
      = s.documents ++ results.map uploadedDocument := by
  induction results with
  | nil => intro s; simp
  | cons r rs ih =>
    intro s
    rw [List.foldl_cons, ih, List.map_cons, uploadDocumentAction_ok_documents]
    simp

/-- Concrete normalized upload response used in counterexamples and
witnesses. -/
def uploadRespA : DocumentUploadResponse :=
  { document_id := "a"
    filename := "contract.pdf"
    document_type := "pdf"
    file_size := 100
    upload_timestamp := "2025-01-01T00:00:00Z"
    processing_status := "pending"
    message := "Document uploaded successfully" }

/-- Second concrete normalized upload response with a distinct id. -/
def uploadRespB : DocumentUploadResponse :=
  { uploadRespA with document_id := "b", filename := "lease.docx" }

/-- Claim C7, counterexample: addDocument appends without deduplication, so
two successful uploads whose normalized responses carry the same document_id
leave the store with a duplicated id. -/
theorem upload_duplicate_id_counterexample :
    ¬ (((uploadDocumentAction
          (uploadDocumentAction initialState (.ok uploadRespA)).1
          (.ok uploadRespA)).1.documents.map
        (fun d => d.document_id)).Nodup) := by
  decide

/-- Claim C7 as amended: the store appends each successfully uploaded
document without deduplication, so after any sequence of successful uploads
the store's ids are pairwise distinct provided the ids already in the store
together with the ids of the upload responses are pairwise distinct. -/
theorem upload_distinct_ids_preserved (s : AppState)
    (results : List DocumentUploadResponse)
    (h : (s.documents.map (fun d => d.document_id)
          ++ results.map (fun r => r.document_id)).Nodup) :
    ((results.foldl (fun st r => (uploadDocumentAction st (.ok r)).1)
        s).documents.map (fun d => d.document_id)).Nodup := by
  rw [foldl_upload_documents, List.map_append, List.map_map]
  have hc : (fun d => d.document_id) ∘ uploadedDocument
      = fun r : DocumentUploadResponse => r.document_id := rfl
  rw [hc]
  exact h

/-- Witness for amended claim C7 at a concrete input: two uploads with
distinct ids leave the store with pairwise distinct ids. -/
theorem upload_distinct_ids_preserved_witness :
    ((([uploadRespA, uploadRespB].foldl
        (fun st r => (uploadDocumentAction st (.ok r)).1)
        initialState)).documents.map (fun d => d.document_id)).Nodup :=
  upload_distinct_ids_preserved initialState [uploadRespA, uploadRespB]
    (by decide)

/-- Claim C8: a successful deleteDocument call removes every document whose
id is the deleted one, keeps all other documents in their original order,
clears currentDocument exactly when it referenced the deleted id, and leaves
it untouched otherwise. -/
theorem delete_document_contract (s : AppState) (documentId ack : String) :
    (∀ d ∈ (deleteDocumentAction s documentId (.ok ack)).documents,
      d.document_id ≠ documentId) ∧
    (deleteDocumentAction s documentId (.ok ack)).documents.Sublist
      s.documents ∧
    (∀ d ∈ s.documents, d.document_id ≠ documentId →
      d ∈ (deleteDocumentAction s documentId (.ok ack)).documents) ∧
    (s.currentDocument = none →
      (deleteDocumentAction s documentId (.ok ack)).currentDocument = none) ∧
    (∀ c, s.currentDocument = some c →
      (c.document_id = documentId →
        (deleteDocumentAction s documentId (.ok ack)).currentDocument = none) ∧
      (c.document_id ≠ documentId →
        (deleteDocumentAction s documentId (.ok ack)).currentDocument
          = some c)) := by
  refine ⟨?_, ?_, ?_, ?_, ?_⟩
  · intro d hd
    have hd' : d ∈ s.documents.filter (fun d => d.document_id != documentId) := hd
    rw [List.mem_filter] at hd'
    simpa using hd'.2
  · exact List.filter_sublist s.documents
  · intro d hd hne
    show d ∈ s.documents.filter (fun d => d.document_id != documentId)
    rw [List.mem_filter]
    exact ⟨hd, by simpa using hne⟩
  · intro hcur
    show (removeDocument (beginLoad s) documentId).currentDocument = none
    rw [removeDocument]
    simp [beginLoad, hcur]
  · intro c hcur
    constructor
    · intro heq
      show (removeDocument (beginLoad s) documentId).currentDocument = none
      rw [removeDocument]
      simp [beginLoad, hcur, heq]
    · intro hne
      show (removeDocument (beginLoad s) documentId).currentDocument = some c
      rw [removeDocument]
      simp [beginLoad, hcur, hne]

/-- Concrete document used in witnesses: id a. -/
def docA : Document := uploadedDocument uploadRespA

/-- Concrete document used in witnesses: id b. -/
def docB : Document := uploadedDocument uploadRespB

/-- Concrete store state holding documents a and b with a selected. -/
def twoDocState : AppState :=
  { initialState with documents := [docA, docB], currentDocument := some docA }

/-- Witness for claim C8 at a concrete input: deleting document a from a
store holding a and b keeps b and clears the selection that referenced a. -/
theorem delete_document_contract_witness :
    docB ∈ (deleteDocumentAction twoDocState "a" (.ok "ok")).documents ∧
    (deleteDocumentAction twoDocState "a" (.ok "ok")).currentDocument = none :=
  ⟨(delete_document_contract twoDocState "a" "ok").2.2.1 docB (by decide)
      (by decide),
   ((delete_document_contract twoDocState "a" "ok").2.2.2.2 docA
      (by decide)).1 (by decide)⟩

/-- Claim C9: the adapter substitutes documented defaults for absent
response fields.  For uploadDocument, an absent document_type is inferred
from the lowercased filename extension (pdf extension gives pdf, docx or doc
gives docx, anything else gives txt), an absent id (under both accepted key
names) yields the generated token built from the current time, and an absent
timestamp (under both accepted key names) yields the current ISO time.  For
summarizeDocument, when neither summary location carries a usable value the
summary is the literal placeholder string. -/
theorem adapter_normalization_defaults (file : JsFile) (nowMs : Nat)
    (nowIso : String) (raw : UploadRaw) (documentId : String)
    (language : Option String) (araw : AnalysisRaw) :
    (raw.document_type = none →
      (strEndsWith (jsToLower file.name) ".pdf" = true →
        (mapUploadResponse file nowMs nowIso raw).document_type = "pdf") ∧
      (strEndsWith (jsToLower file.name) ".pdf" = false →
        (strEndsWith (jsToLower file.name) ".docx" = true ∨
         strEndsWith (jsToLower file.name) ".doc" = true) →
        (mapUploadResponse file nowMs nowIso raw).document_type = "docx") ∧
      (strEndsWith (jsToLower file.name) ".pdf" = false →
        strEndsWith (jsToLower file.name) ".docx" = false →
        strEndsWith (jsToLower file.name) ".doc" = false →
        (mapUploadResponse file nowMs nowIso raw).document_type = "txt")) ∧
    (raw.document_id = none → raw.id = none →
      (mapUploadResponse file nowMs nowIso raw).document_id
        = toString nowMs) ∧
    (raw.upload_timestamp = none → raw.timestamp = none →
      (mapUploadResponse file nowMs nowIso raw).upload_timestamp = nowIso) ∧
    (araw.analysis_summary = none → araw.simplified_version = none →
      (mapSummaryResponse documentId language araw).summary
        = "Summary not available.") := by
  refine ⟨?_, ?_, ?_, ?_⟩
  · intro htype
    refine ⟨?_, ?_, ?_⟩
    · intro hpdf
      simp [mapUploadResponse, nco, htype, inferType, hpdf]
    · intro hpdf hdocx
      rcases hdocx with hd | hd <;>
        simp [mapUploadResponse, nco, htype, inferType, hpdf, hd]
    · intro hpdf hdocx hdoc
      simp [mapUploadResponse, nco, htype, inferType, hpdf, hdocx, hdoc]
  · intro h1 h2
    simp [mapUploadResponse, nco, h1, h2]
  · intro h1 h2
    simp [mapUploadResponse, nco, h1, h2]
  · intro h1 h2
    simp [mapSummaryResponse, jsOr, h1, h2]

/-- Raw upload payload with every field absent, used in witnesses. -/
def emptyUploadRaw : UploadRaw :=
  { document_id := none
    id := none
    filename := none
    document_type := none
    file_size := none
    size := none
    upload_timestamp := none
    timestamp := none
    processing_status := none
    status := none
    message := none }

/-- Concrete dropped file with an uppercase pdf extension, used in
witnesses. -/
def pdfFile : JsFile :=
  { name := "Contract.PDF", type := "application/pdf", size := 2048 }

/-- Witness for claim C9 at concrete inputs: with an entirely absent payload
the adapter infers type pdf from the filename, generates the id token from
the clock, stamps the current ISO time, and the summary mapping falls back
to its placeholder. -/
theorem adapter_normalization_defaults_witness :
    (mapUploadResponse pdfFile 1700000000000 "2025-01-01T00:00:00Z"
        emptyUploadRaw).document_type = "pdf" ∧
    (mapUploadResponse pdfFile 1700000000000 "2025-01-01T00:00:00Z"
        emptyUploadRaw).document_id = toString 1700000000000 ∧
    (mapUploadResponse pdfFile 1700000000000 "2025-01-01T00:00:00Z"
        emptyUploadRaw).upload_timestamp = "2025-01-01T00:00:00Z" ∧
    (mapSummaryResponse "d1" none
        { analysis_summary := none, simplified_version := none }).summary
      = "Summary not available." :=
  ⟨((adapter_normalization_defaults pdfFile 1700000000000 "2025-01-01T00:00:00Z"
      emptyUploadRaw "d1" none
      { analysis_summary := none, simplified_version := none }).1
      rfl).1 (by decide),
   (adapter_normalization_defaults pdfFile 1700000000000 "2025-01-01T00:00:00Z"
      emptyUploadRaw "d1" none
      { analysis_summary := none, simplified_version := none }).2.1
      rfl rfl,
   (adapter_normalization_defaults pdfFile 1700000000000 "2025-01-01T00:00:00Z"
      emptyUploadRaw "d1" none
      { analysis_summary := none, simplified_version := none }).2.2.1
      rfl rfl,
   (adapter_normalization_defaults pdfFile 1700000000000 "2025-01-01T00:00:00Z"
      emptyUploadRaw "d1" none
      { analysis_summary := none, simplified_version := none }).2.2.2
      rfl rfl⟩

/-- Claim C10: when the backend upload response carries neither a
processing_status nor a status field, the adapter defaults the normalized
processing_status to the literal string processed, the store commits a
document carrying that value, and that value lies outside the four
documented lifecycle states. -/
theorem upload_default_status_processed (s : AppState) (file : JsFile)
    (nowMs : Nat) (nowIso : String) (raw : UploadRaw)
    (h1 : raw.processing_status = none) (h2 : raw.status = none) :
    (mapUploadResponse file nowMs nowIso raw).processing_status
      = "processed" ∧
    (uploadDocumentAction s
        (.ok (mapUploadResponse file nowMs nowIso raw))).2
      = some (uploadedDocument (mapUploadResponse file nowMs nowIso raw)) ∧
    uploadedDocument (mapUploadResponse file nowMs nowIso raw) ∈
      (uploadDocumentAction s
        (.ok (mapUploadResponse file nowMs nowIso raw))).1.documents ∧
    (uploadedDocument
        (mapUploadResponse file nowMs nowIso raw)).processing_status
      = "processed" ∧
    "processed" ∉
      (["pending", "processing", "completed", "failed"] : List String) := by
  have hstatus : (mapUploadResponse file nowMs nowIso raw).processing_status
      = "processed" := by
    simp [mapUploadResponse, nco, h1, h2]
  refine ⟨hstatus, rfl, ?_, hstatus, by decide⟩
  rw [uploadDocumentAction_ok_documents]
  exact List.mem_append_right _ (List.mem_singleton.mpr rfl)

/-- Witness for claim C10 at concrete inputs: an upload response with no
status field commits a document whose processing_status is the literal
processed. -/
theorem upload_default_status_processed_witness :
    (mapUploadResponse pdfFile 1700000000000 "2025-01-01T00:00:00Z"
        emptyUploadRaw).processing_status = "processed" ∧
    (uploadDocumentAction initialState
        (.ok (mapUploadResponse pdfFile 1700000000000 "2025-01-01T00:00:00Z"
          emptyUploadRaw))).2
      = some (uploadedDocument (mapUploadResponse pdfFile 1700000000000
          "2025-01-01T00:00:00Z" emptyUploadRaw)) ∧
    uploadedDocument (mapUploadResponse pdfFile 1700000000000
        "2025-01-01T00:00:00Z" emptyUploadRaw) ∈
      (uploadDocumentAction initialState
        (.ok (mapUploadResponse pdfFile 1700000000000 "2025-01-01T00:00:00Z"
          emptyUploadRaw))).1.documents ∧
    (uploadedDocument (mapUploadResponse pdfFile 1700000000000
        "2025-01-01T00:00:00Z" emptyUploadRaw)).processing_status
      = "processed" ∧
    "processed" ∉
      (["pending", "processing", "completed", "failed"] : List String) :=
  upload_default_status_processed initialState pdfFile 1700000000000
    "2025-01-01T00:00:00Z" emptyUploadRaw rfl rfl

/-- Claim C2: with maxAttempts three and a status endpoint returning
processing on every fetch, the poll performs exactly three status fetches
and then rejects with the timeout message. -/
theorem poll_bound_three_attempts (statuses : Nat → DocumentStatus)
    (h : ∀ k, (statuses k).status = "processing") :
    (pollDocumentStatus statuses 3).1
      = .rejected "Timeout waiting for document processing" ∧
    (pollDocumentStatus statuses 3).2
      = [statuses 1, statuses 2, statuses 3] ∧
    (pollDocumentStatus statuses 3).2.length = 3 := by
  have h1 := h 1
  have h2 := h 2
  have h3 := h 3
  refine ⟨?_, ?_, ?_⟩ <;>
    simp [pollDocumentStatus, pollTick, h1, h2, h3]

/-- Status stream that always reports processing, used in witnesses. -/
def alwaysProcessing : Nat → DocumentStatus :=
  fun _ => { document_id := "d1", status := "processing", error_message := none }

/-- Witness for claim C2 at a concrete input: the always-processing stream
with maxAttempts three times out after exactly three fetches. -/
theorem poll_bound_three_attempts_witness :
    (pollDocumentStatus alwaysProcessing 3).1
      = .rejected "Timeout waiting for document processing" ∧
    (pollDocumentStatus alwaysProcessing 3).2
      = [alwaysProcessing 1, alwaysProcessing 2, alwaysProcessing 3] ∧
    (pollDocumentStatus alwaysProcessing 3).2.length = 3 :=
  poll_bound_three_attempts alwaysProcessing (fun _ => rfl)

/-- Placeholder status used as the default value of list indexing. -/
def dummyStatus : DocumentStatus :=
  { document_id := "", status := "", error_message := none }

/-- Behavioral specification of one poll run started after a given number of
attempts: at least one fetch happens; the callback receives exactly the
fetched statuses in order; every fetch before the last returned a
non-terminal status; and if the last fetched status is completed or failed
the promise resolves with it or rejects with the derived failure message,
respectively. -/
def pollRunSpec (statuses : Nat → DocumentStatus) (attempts : Nat)
    (p : PollResult × List DocumentStatus) : Prop :=
  1 ≤ p.2.length ∧
  (∀ i, i < p.2.length →
    p.2.getD i dummyStatus = statuses (attempts + 1 + i)) ∧
  (∀ i, i + 1 < p.2.length →
    (statuses (attempts + 1 + i)).status ≠ "completed" ∧
    (statuses (attempts + 1 + i)).status ≠ "failed") ∧
  ((statuses (attempts + p.2.length)).status = "completed" →
    p.1 = .resolved (statuses (attempts + p.2.length))) ∧
  ((statuses (attempts + p.2.length)).status = "failed" →
    p.1 = .rejected (jsOr (statuses (attempts + p.2.length)).error_message
      "Document processing failed"))

/-- Every run of the poll tick loop with enough fuel to reach the attempts
bound satisfies the behavioral specification. -/
theorem pollTick_satisfies_spec (fuel : Nat) :
    ∀ (statuses : Nat → DocumentStatus) (maxAttempts attempts : Nat),
    1 ≤ fuel → maxAttempts ≤ attempts + fuel →
    pollRunSpec statuses attempts (pollTick statuses maxAttempts attempts fuel) := by
  induction fuel with
  | zero => intro _ _ _ hfuel _; omega
  | succ fuel ih =>
    intro statuses maxAttempts attempts _ hbound
    by_cases hc : (statuses (attempts + 1)).status = "completed"
    · have hp : pollTick statuses maxAttempts attempts (fuel + 1)
          = (.resolved (statuses (attempts + 1)), [statuses (attempts + 1)]) := by
        simp [pollTick, hc]
      rw [hp]
      refine ⟨by simp, ?_, ?_, ?_, ?_⟩
      · intro i hi
        have hi0 : i = 0 := by simpa using hi
        subst hi0
        simp
      · intro i hi
        simp at hi
      · intro _
        simp
      · intro hfail
        simp at hfail
        rw [hfail] at hc
        simp at hc
    · by_cases hf : (statuses (attempts + 1)).status = "failed"
      · have hp : pollTick statuses maxAttempts attempts (fuel + 1)
            = (.rejected (jsOr (statuses (attempts + 1)).error_message
                "Document processing failed"), [statuses (attempts + 1)]) := by
          simp [pollTick, hc, hf]
        rw [hp]
        refine ⟨by simp, ?_, ?_, ?_, ?_⟩
        · intro i hi
          have hi0 : i = 0 := by simpa using hi
          subst hi0
          simp
        · intro i hi
          simp at hi
        · intro hcomp
          simp at hcomp
          rw [hcomp] at hf
          simp at hf
        · intro _
          simp
      · by_cases ht : maxAttempts ≤ attempts + 1
        · have hp : pollTick statuses maxAttempts attempts (fuel + 1)
              = (.rejected "Timeout waiting for document processing",
                 [statuses (attempts + 1)]) := by
            simp [pollTick, hc, hf, ht]
          rw [hp]
          refine ⟨by simp, ?_, ?_, ?_, ?_⟩
          · intro i hi
            have hi0 : i = 0 := by simpa using hi
            subst hi0
            simp
          · intro i hi
            simp at hi
          · intro hcomp
            simp at hcomp
            exact absurd hcomp hc
          · intro hfail
            simp at hfail
            exact absurd hfail hf
        · have hlt : attempts + 1 < maxAttempts := by omega
          have hp : pollTick statuses maxAttempts attempts (fuel + 1)
              = ((pollTick statuses maxAttempts (attempts + 1) fuel).1,
                 statuses (attempts + 1)
                   :: (pollTick statuses maxAttempts (attempts + 1) fuel).2) := by
            simp [pollTick, hc, hf, ht]
          have hrest := ih statuses maxAttempts (attempts + 1)
            (by omega) (by omega)
          obtain ⟨hr1, hr2, hr3, hr4, hr5⟩ := hrest
          rw [hp]
          refine ⟨by simp, ?_, ?_, ?_, ?_⟩
          · intro i hi
            match i with
            | 0 => simp
            | j + 1 =>
              simp only [List.getD_cons_succ]
              have hj : j < (pollTick statuses maxAttempts (attempts + 1) fuel).2.length := by
                simpa using hi
              have := hr2 j hj
              have e : attempts + 1 + 1 + j = attempts + 1 + (j + 1) := by omega
              rw [e] at this
              simpa using this
          · intro i hi
            match i with
            | 0 =>
              constructor
              · simpa using hc
              · simpa using hf
            | j + 1 =>
              have hj : j + 1 < (pollTick statuses maxAttempts (attempts + 1) fuel).2.length := by
                simpa using hi
              have := hr3 j hj
              have e : attempts + 1 + 1 + j = attempts + 1 + (j + 1) := by omega
              rw [e] at this
              exact this
          · intro hcomp
            have e : attempts + (statuses (attempts + 1)
                  :: (pollTick statuses maxAttempts (attempts + 1) fuel).2).length
                = attempts + 1 + (pollTick statuses maxAttempts (attempts + 1) fuel).2.length := by
              simp
              omega
            rw [e] at hcomp ⊢
            exact hr4 hcomp
          · intro hfail
            have e : attempts + (statuses (attempts + 1)
                  :: (pollTick statuses maxAttempts (attempts + 1) fuel).2).length
                = attempts + 1 + (pollTick statuses maxAttempts (attempts + 1) fuel).2.length := by
              simp
              omega
            rw [e] at hfail ⊢
            exact hr5 hfail

/-- Claim C3: on every poll tick the callback is invoked with the fetched
status (the callback trace is exactly the sequence of fetched statuses, and
every fetch before the last was non-terminal); if the last fetched status is
completed the poll resolves with it; if it is failed the poll rejects with
the server-supplied error_message or, when that is absent or empty, the
generic processing-failure message; and in the generic case that rejection
is distinguishable from the timeout rejection produced when maxAttempts is
exhausted. -/
theorem poll_callback_and_terminal_behavior (statuses : Nat → DocumentStatus)
    (maxAttempts : Nat) :
    1 ≤ (pollDocumentStatus statuses maxAttempts).2.length ∧
    (∀ i, i < (pollDocumentStatus statuses maxAttempts).2.length →
      (pollDocumentStatus statuses maxAttempts).2.getD i dummyStatus
        = statuses (i + 1)) ∧
    (∀ i, i + 1 < (pollDocumentStatus statuses maxAttempts).2.length →
      (statuses (i + 1)).status ≠ "completed" ∧
      (statuses (i + 1)).status ≠ "failed") ∧
    ((statuses ((pollDocumentStatus statuses maxAttempts).2.length)).status
        = "completed" →
      (pollDocumentStatus statuses maxAttempts).1
        = .resolved
            (statuses ((pollDocumentStatus statuses maxAttempts).2.length))) ∧
    ((statuses ((pollDocumentStatus statuses maxAttempts).2.length)).status
        = "failed" →
      (pollDocumentStatus statuses maxAttempts).1
        = .rejected (jsOr
            (statuses
              ((pollDocumentStatus statuses maxAttempts).2.length)).error_message
            "Document processing failed")) ∧
    ((statuses ((pollDocumentStatus statuses maxAttempts).2.length)).status
        = "failed" →
      (statuses
          ((pollDocumentStatus statuses maxAttempts).2.length)).error_message
        = none →
      (pollDocumentStatus statuses maxAttempts).1
        ≠ .rejected "Timeout waiting for document processing") := by
  have hs := pollTick_satisfies_spec (maxAttempts + 1) statuses maxAttempts 0
    (by omega) (by omega)
  obtain ⟨h1, h2, h3, h4, h5⟩ := hs
  refine ⟨h1, ?_, ?_, ?_, ?_, ?_⟩
  · intro i hi
    have hh := h2 i hi
    have e : 0 + 1 + i = i + 1 := by omega
    rw [e] at hh
    exact hh
  · intro i hi
    have hh := h3 i hi
    have e : 0 + 1 + i = i + 1 := by omega
    rw [e] at hh
    exact hh
  · intro hcomp
    have hh := h4 (by simpa using hcomp)
    simpa using hh
  · intro hfail
    have hh := h5 (by simpa using hfail)
    simpa using hh
  · intro hfail hnone
    have hh := h5 (by simpa using hfail)
    rw [show (0 + (pollTick statuses maxAttempts 0 (maxAttempts + 1)).2.length)
        = (pollDocumentStatus statuses maxAttempts).2.length from by
      simp [pollDocumentStatus]] at hh
    rw [hnone] at hh
    simp only [jsOr] at hh
    show (pollTick statuses maxAttempts 0 (maxAttempts + 1)).1
      ≠ .rejected "Timeout waiting for document processing"
    rw [hh]
    intro heq
    have : "Document processing failed" = "Timeout waiting for document processing" := by
      injection heq
    simp at this

/-- Status stream that reports processing once and then an explicit failure
with no server message, used in witnesses. -/
def failAtTwo : Nat → DocumentStatus :=
  fun k =>
    if k = 2 then { document_id := "d1", status := "failed", error_message := none }
    else { document_id := "d1", status := "processing", error_message := none }

/-- Witness for claim C3 at a concrete input: with a stream failing on the
second fetch, the first callback saw the first fetched status, the poll
rejects with the generic processing-failure message, and that rejection
differs from the timeout rejection. -/
theorem poll_callback_and_terminal_behavior_witness :
    (pollDocumentStatus failAtTwo 5).2.getD 0 dummyStatus = failAtTwo (0 + 1) ∧
    (pollDocumentStatus failAtTwo 5).1
      = .rejected (jsOr
          (failAtTwo ((pollDocumentStatus failAtTwo 5).2.length)).error_message
          "Document processing failed") ∧
    (pollDocumentStatus failAtTwo 5).1
      ≠ .rejected "Timeout waiting for document processing" :=
  ⟨(poll_callback_and_terminal_behavior failAtTwo 5).2.1 0 (by decide),
   (poll_callback_and_terminal_behavior failAtTwo 5).2.2.2.2.1 (by decide),
   (poll_callback_and_terminal_behavior failAtTwo 5).2.2.2.2.2 (by decide)
     (by decide)⟩
